import Mathlib

/-!
Shallow embedding of the gate-control core of `srv.py` (simulated
gate-actuator control system, variant 30).

Python floats are modelled as exact rationals; Python 3 `round` is modelled
as round-half-to-even (`pyRound`).  The three rounded code constants agree
with the Python float evaluation (`CODE_NOM = 246`, `CODE_HALF = 123`,
`CODE_SLOW = 74`).  Python ints are modelled as `ℤ` (`x & 0xFF` on a Python
int is `x % 256` with a nonnegative result, matching `Int.emod`).  The log
callback is modelled as a list of `LogEvent` values, one constructor per
distinct log call site relevant to control decisions.
-/

/-- Python 3 `round` on a real value, as a function `ℚ → ℤ`:
round to nearest, ties to even. -/
def pyRound (q : ℚ) : ℤ :=
  let f := ⌊q⌋
  let r := q - (f : ℚ)
  if r < 1/2 then f
  else if 1/2 < r then f + 1
  else if f % 2 = 0 then f else f + 1

/-- `clamp(x, a, b)` from srv.py. -/
def clamp (x a b : ℚ) : ℚ :=
  if x < a then a else if x > b then b else x

/-- `clamp` applied to integer arguments (as in
`int(clamp(target_code, 0, 255))` inside `start_ramp`). -/
def clampZ (x a b : ℤ) : ℤ :=
  if x < a then a else if x > b then b else x

/-! Constants of srv.py (variant 30). -/

def ADC_BITS : ℕ := 8
def ADC_VREF : ℚ := 39/2
def DAC_BITS : ℕ := 8
def DAC_VMAX : ℚ := 120
def U_NOM : ℚ := 116
def U_HALF : ℚ := U_NOM * (1/2)
def U_SLOW : ℚ := U_NOM * (3/10)
def TENSO_MAX : ℚ := 120
def TENSO_U_MAX : ℚ := 15
def TH_55 : ℚ := 55
def TH_70 : ℚ := 70
def TH_95 : ℚ := 95
def RAMP_UP_SEC : ℚ := 12
def RAMP_DOWN_SEC : ℚ := 5
def SAMPLE_PERIOD : ℚ := 1/4
def TRAVEL_TIME_AT_NOM : ℚ := 30
def BASE_SPEED : ℚ := 1 / TRAVEL_TIME_AT_NOM
def OPEN1_POS : ℚ := 4/5
def OPEN2_POS : ℚ := 1
def CLOSE1_POS : ℚ := 1/5
def CLOSE2_POS : ℚ := 0

/-- Generic quantizer encode: the formula shared by `adc_code_from_voltage`
(`hi = ADC_VREF`, `bits = 8`) and the `CODE_*` constants
(`hi = DAC_VMAX`, `bits = 8`): clamp to `[0, hi]`, scale linearly to
`[0, 2^bits - 1]`, round to nearest (ties to even). -/
def q_encode (v hi : ℚ) (bits : ℕ) : ℤ :=
  pyRound (clamp v 0 hi / hi * ((2:ℚ) ^ bits - 1))

/-- Generic quantizer decode: the inverse linear map, the formula of
`dac_voltage_from_code` (`hi = DAC_VMAX`, `bits = 8`). -/
def q_decode (c : ℤ) (hi : ℚ) (bits : ℕ) : ℚ :=
  (c : ℚ) / ((2:ℚ) ^ bits - 1) * hi

/-- `tenso_to_voltage` from srv.py. -/
def tenso_to_voltage (stress : ℚ) : ℚ :=
  stress / TENSO_MAX * TENSO_U_MAX

/-- `adc_code_from_voltage` from srv.py: 8-bit, range `0..19.5` V. -/
def adc_code_from_voltage (u : ℚ) : ℤ :=
  q_encode u ADC_VREF ADC_BITS

/-- `dac_voltage_from_code` from srv.py: 8-bit, range `0..120` V. -/
def dac_voltage_from_code (code : ℤ) : ℚ :=
  q_decode code DAC_VMAX DAC_BITS

def CODE_NOM : ℤ := pyRound (U_NOM / DAC_VMAX * ((2:ℚ) ^ DAC_BITS - 1))
def CODE_HALF : ℤ := pyRound (U_HALF / DAC_VMAX * ((2:ℚ) ^ DAC_BITS - 1))
def CODE_SLOW : ℤ := pyRound (U_SLOW / DAC_VMAX * ((2:ℚ) ^ DAC_BITS - 1))
def CODE_ZERO : ℤ := 0

/-! The `Ramp` class of srv.py. -/

structure Ramp where
  active : Bool
  start_code : ℤ
  end_code : ℤ
  duration : ℚ
  t : ℚ
deriving DecidableEq, Repr

/-- `Ramp.__init__`. -/
def Ramp.init : Ramp :=
  { active := false, start_code := 0, end_code := 0, duration := 0, t := 0 }

/-- `Ramp.start`: `duration` is replaced by `max(1e-6, duration)`. -/
def Ramp.start (current_code target_code : ℤ) (duration : ℚ) : Ramp :=
  { active := true, start_code := current_code, end_code := target_code,
    duration := max (1/1000000) duration, t := 0 }

/-- `Ramp.update(dt)`: returns the mutated ramp together with
`(code, done)`. -/
def Ramp.update (r : Ramp) (dt : ℚ) : Ramp × ℤ × Bool :=
  if r.active = false then (r, r.end_code, false)
  else
    let t' := r.t + dt
    let k := clamp (t' / r.duration) 0 1
    let code := pyRound ((r.start_code : ℚ) + ((r.end_code : ℚ) - (r.start_code : ℚ)) * k)
    let done : Bool := decide (1 ≤ k)
    ({ r with t := t', active := if done then false else r.active }, code, done)

/-- Iterated `Ramp.update` over a list of `dt` values, collecting the
`(code, done)` outputs in order. -/
def rampSteps : Ramp → List ℚ → Ramp × List (ℤ × Bool)
  | r, [] => (r, [])
  | r, d :: ds =>
    let u := r.update d
    let rest := rampSteps u.1 ds
    (rest.1, (u.2.1, u.2.2) :: rest.2)

/-! The `GateSystem` class of srv.py. -/

inductive GState
  | IDLE
  | OPENING
  | CLOSING
  | STOPPED
deriving DecidableEq, Repr

/-- One constructor per distinct log call site of the control core. -/
inductive LogEvent
  | resetSensors
  | openStart
  | closeStart
  | emergencyObstacle
  | emergencyForce95
  | slowEnter
  | slowExit
  | openEndStop
  | openDecel
  | closeEndStop
  | closeDecel
deriving DecidableEq, Repr

structure GateSystem where
  state : GState
  direction : ℤ
  position : ℚ
  uz1 : Bool
  uz2 : Bool
  stress : ℚ
  ko : Bool
  kz : Bool
  kv_o1 : Bool
  kv_o2 : Bool
  kv_z1 : Bool
  kv_z2 : Bool
  slow_mode_30 : Bool
  dac_code : ℤ
  target_code : ℤ
  ramp : Ramp
  sample_timer : ℚ
  zp_adc_pulse : Bool
  zp_dac_pulse : Bool
  gt_flag : Bool
deriving DecidableEq, Repr

/-- `GateSystem.__init__`. -/
def GateSystem.init : GateSystem :=
  { state := .IDLE, direction := 0, position := 0,
    uz1 := false, uz2 := false, stress := 0,
    ko := false, kz := false,
    kv_o1 := false, kv_o2 := false, kv_z1 := true, kv_z2 := true,
    slow_mode_30 := false, dac_code := 0, target_code := 0,
    ramp := Ramp.init, sample_timer := 0,
    zp_adc_pulse := false, zp_dac_pulse := false, gt_flag := true }

/-- `GateSystem.reset_sensors`. -/
def GateSystem.reset_sensors (g : GateSystem) : GateSystem × List LogEvent :=
  ({ g with uz1 := false, uz2 := false, stress := 0 }, [.resetSensors])

/-- `GateSystem.start_ramp`: a request whose clamped target equals the
currently installed target while a ramp is active is skipped entirely. -/
def GateSystem.start_ramp (g : GateSystem) (target_code : ℤ) (duration : ℚ) :
    GateSystem :=
  let target := clampZ target_code 0 255
  if target = g.target_code ∧ g.ramp.active = true then g
  else
    let g1 := { g with target_code := target }
    { g1 with ramp := Ramp.start g1.dac_code g1.target_code duration,
              zp_dac_pulse := true }

/-- `GateSystem.nominal_target_code`. -/
def GateSystem.nominal_target_code (g : GateSystem) : ℤ :=
  if g.state = .OPENING then (if g.kv_o1 then CODE_HALF else CODE_NOM)
  else if g.state = .CLOSING then (if g.kv_z1 then CODE_HALF else CODE_NOM)
  else CODE_ZERO

/-- `GateSystem.press_open`. -/
def GateSystem.press_open (g0 : GateSystem) : GateSystem × List LogEvent :=
  let g := { g0 with ko := true, kz := false }
  if g.state = .IDLE ∨ g.state = .STOPPED then
    let g1 := { g with state := .OPENING, direction := 1, slow_mode_30 := false }
    (g1.start_ramp g1.nominal_target_code RAMP_UP_SEC, [.openStart])
  else (g, [])

/-- `GateSystem.press_close`. -/
def GateSystem.press_close (g0 : GateSystem) : GateSystem × List LogEvent :=
  let g := { g0 with kz := true, ko := false }
  if g.state = .IDLE ∨ g.state = .STOPPED then
    let g1 := { g with state := .CLOSING, direction := -1, slow_mode_30 := false }
    (g1.start_ramp g1.nominal_target_code RAMP_UP_SEC, [.closeStart])
  else (g, [])

/-- `GateSystem.update_limits_from_position`. -/
def GateSystem.update_limits_from_position (g : GateSystem) : GateSystem :=
  { g with kv_o1 := decide (g.position ≥ OPEN1_POS),
           kv_o2 := decide (g.position ≥ OPEN2_POS),
           kv_z1 := decide (g.position ≤ CLOSE1_POS),
           kv_z2 := decide (g.position ≤ CLOSE2_POS) }

/-- `GateSystem.build_port300`. -/
def GateSystem.build_port300 (g : GateSystem) (adc_code : ℤ) : ℕ :=
  let us_or := g.uz1 || g.uz2
  (adc_code % 256).toNat
    ||| ((if g.kv_o1 then 1 else 0) <<< 8)
    ||| ((if g.kv_o2 then 1 else 0) <<< 9)
    ||| ((if g.kv_z1 then 1 else 0) <<< 10)
    ||| ((if g.kv_z2 then 1 else 0) <<< 11)
    ||| ((if us_or then 1 else 0) <<< 12)
    ||| ((if g.ko then 1 else 0) <<< 13)
    ||| ((if g.kz then 1 else 0) <<< 14)
    ||| ((if g.gt_flag then 1 else 0) <<< 15)

/-- `GateSystem.build_port301`. -/
def GateSystem.build_port301 (g : GateSystem) : ℕ :=
  (g.dac_code % 256).toNat
    ||| ((if g.zp_dac_pulse then 1 else 0) <<< 14)
    ||| ((if g.zp_adc_pulse then 1 else 0) <<< 15)

/-- `GateSystem.emergency_stop`: the reason is logged only when not already
`STOPPED`. -/
def GateSystem.emergency_stop (g : GateSystem) (reason : LogEvent) :
    GateSystem × List LogEvent :=
  let logs := if g.state ≠ .STOPPED then [reason] else []
  let g1 := { g with state := GState.STOPPED, direction := 0,
                     slow_mode_30 := false }
  (g1.start_ramp CODE_ZERO RAMP_DOWN_SEC, logs)

/-- `GateSystem.normal_stop_to_zero`. -/
def GateSystem.normal_stop_to_zero (g : GateSystem) (reason : LogEvent) :
    GateSystem × List LogEvent :=
  let g1 := { g with direction := 0, slow_mode_30 := false }
  (g1.start_ramp CODE_ZERO RAMP_DOWN_SEC, [reason])

/-- `GateSystem.control_step` ("poll + analysis + output").  Returns the new
system, the sampled ADC code, and the emitted log events.  The Python
sequence of `if`/`return` statements is rendered as nested `if`/`else`; the
fall-through from the `OPENING` block past the `CLOSING` check is the
trailing `(g, adc_code, [])` of the `OPENING` arm. -/
def GateSystem.control_step (g0 : GateSystem) : GateSystem × ℤ × List LogEvent :=
  let g := { g0 with zp_adc_pulse := true, gt_flag := true }
  let stress_u := tenso_to_voltage g.stress
  let adc_code := adc_code_from_voltage stress_u
  let us_or := g.uz1 || g.uz2
  if g.state = .OPENING ∨ g.state = .CLOSING then
    if us_or then
      let es := g.emergency_stop .emergencyObstacle
      (es.1, adc_code, es.2)
    else if g.stress ≥ TH_95 then
      let es := g.emergency_stop .emergencyForce95
      (es.1, adc_code, es.2)
    else if g.stress ≥ TH_70 then
      if g.slow_mode_30 = false then
        let g1 := { g with slow_mode_30 := true }
        (g1.start_ramp CODE_SLOW RAMP_DOWN_SEC, adc_code, [.slowEnter])
      else (g, adc_code, [])
    else if g.slow_mode_30 = true ∧ g.stress < TH_55 then
      let g1 := { g with slow_mode_30 := false }
      (g1.start_ramp g1.nominal_target_code RAMP_UP_SEC, adc_code, [.slowExit])
    else if g.state = .OPENING then
      if g.kv_o2 then
        let ns := g.normal_stop_to_zero .openEndStop
        (ns.1, adc_code, ns.2)
      else if g.kv_o1 = true ∧ g.slow_mode_30 = false then
        if g.target_code > CODE_HALF then
          (g.start_ramp CODE_HALF RAMP_DOWN_SEC, adc_code, [.openDecel])
        else (g, adc_code, [])
      else (g, adc_code, [])
    else
      if g.kv_z2 then
        let ns := g.normal_stop_to_zero .closeEndStop
        (ns.1, adc_code, ns.2)
      else if g.kv_z1 = true ∧ g.slow_mode_30 = false then
        if g.target_code > CODE_HALF then
          (g.start_ramp CODE_HALF RAMP_DOWN_SEC, adc_code, [.closeDecel])
        else (g, adc_code, [])
      else (g, adc_code, [])
  else (g, adc_code, [])

/-- The sampling drain loop of `GateSystem.update`: each iteration subtracts
`SAMPLE_PERIOD` from the timer and runs one `control_step` (which never
touches `sample_timer`), the last sampled ADC code winning. -/
def GateSystem.run_samples : ℕ → GateSystem → ℤ → GateSystem × ℤ × List LogEvent
  | 0, g, adc => (g, adc, [])
  | n + 1, g, _adc =>
    let g1 := { g with sample_timer := g.sample_timer - SAMPLE_PERIOD }
    let cs := g1.control_step
    let rest := GateSystem.run_samples n cs.1 cs.2.1
    (rest.1, rest.2.1, cs.2.2 ++ rest.2.2)

/-- The phase of `GateSystem.update` before the sampling loop: pulses are
reset, the ramp advances (or the static target is held), the gate moves,
limit switches are recomputed from position, and the sample accumulator
collects `dt`. -/
def GateSystem.pre_sample (g0 : GateSystem) (dt : ℚ) : GateSystem :=
  let g := { g0 with zp_adc_pulse := false, zp_dac_pulse := false }
  let g1 :=
    if g.ramp.active then
      let ru := g.ramp.update dt
      { g with ramp := ru.1, dac_code := ru.2.1 }
    else { g with dac_code := g.target_code }
  let g2 :=
    if (g1.state = .OPENING ∨ g1.state = .CLOSING) ∧ g1.direction ≠ 0 then
      let u_out := dac_voltage_from_code g1.dac_code
      let frac := clamp (if U_NOM ≤ 1/1000000 then 0 else u_out / U_NOM) 0 (6/5)
      let pos := clamp (g1.position + (g1.direction : ℚ) * (BASE_SPEED * frac) * dt) 0 1
      { g1 with position := pos }
    else g1
  let g3 := g2.update_limits_from_position
  { g3 with sample_timer := g3.sample_timer + dt }

structure UpdateResult where
  gate : GateSystem
  logs : List LogEvent
  port300 : ℕ
  port301 : ℕ
  u_out : ℚ
deriving Repr

/-- `GateSystem.update(dt)`.  The Python `while sample_timer >= SAMPLE_PERIOD`
loop is rendered by its iteration count `⌊sample_timer / SAMPLE_PERIOD⌋`
(taken at 0 when negative), which is exactly how often the loop body fires
since `control_step` never modifies `sample_timer`. -/
def GateSystem.update (g0 : GateSystem) (dt : ℚ) : UpdateResult :=
  let g := g0.pre_sample dt
  let u_out := dac_voltage_from_code g.dac_code
  let n := (⌊g.sample_timer / SAMPLE_PERIOD⌋).toNat
  let rs := GateSystem.run_samples n g 0
  let ga := rs.1
  let gb :=
    if ga.state ≠ .STOPPED then
      if ga.direction = 0 ∧ ga.target_code = 0 ∧ ga.ramp.active = false then
        { ga with state := GState.IDLE, ko := false, kz := false }
      else ga
    else ga
  let gc :=
    if gb.state = .STOPPED ∧ gb.target_code = 0 ∧ gb.ramp.active = false then
      { gb with ko := false, kz := false }
    else gb
  let adc_code_now := adc_code_from_voltage (tenso_to_voltage gc.stress)
  { gate := gc, logs := rs.2.2, port300 := gc.build_port300 adc_code_now,
    port301 := gc.build_port301, u_out := u_out }

/-- External operations other than the two buttons: sensor pokes from the UI
collaborator and the periodic simulation steps. -/
inductive SensorOp
  | setUz1 (b : Bool)
  | setUz2 (b : Bool)
  | setStress (s : ℚ)
  | setPosition (p : ℚ)
  | resetAll
  | tick (dt : ℚ)
  | sample
deriving Repr

def applyOp (g : GateSystem) : SensorOp → GateSystem
  | .setUz1 b => { g with uz1 := b }
  | .setUz2 b => { g with uz2 := b }
  | .setStress s => { g with stress := s }
  | .setPosition p => { g with position := p }
  | .resetAll => (g.reset_sensors).1
  | .tick dt => (g.update dt).gate
  | .sample => (g.control_step).1

def applyOps (g : GateSystem) (ops : List SensorOp) : GateSystem :=
  ops.foldl applyOp g

/-! Concrete fixtures used by witness and counterexample theorems. -/

def gOpening : GateSystem :=
  { GateSystem.init with state := GState.OPENING, direction := 1 }

def gW1 : GateSystem :=
  { gOpening with uz1 := true, stress := 100 }

def gW10 : GateSystem :=
  { GateSystem.init with target_code := 50, ramp := Ramp.start 0 50 12 }

def gW3 : GateSystem :=
  { gOpening with dac_code := 5 }

def gStopped : GateSystem :=
  { GateSystem.init with state := GState.STOPPED }

def gW7 : GateSystem :=
  { gOpening with kv_o1 := true, target_code := CODE_NOM, dac_code := 200 }

def gC5 : GateSystem :=
  { gOpening with slow_mode_30 := true, stress := 60, kv_o2 := true,
                  kv_o1 := true, position := 1, target_code := CODE_SLOW }

def gW5 : GateSystem :=
  { gOpening with stress := 72, target_code := CODE_NOM }

def gW5b : GateSystem :=
  { gOpening with stress := 60, slow_mode_30 := true, target_code := CODE_SLOW }

def gW5c : GateSystem :=
  { gOpening with stress := 50, slow_mode_30 := true, target_code := CODE_SLOW,
                  dac_code := 74 }

def gW4 : GateSystem :=
  { gOpening with kv_o2 := true, kv_o1 := true, position := 1,
                  target_code := CODE_HALF, dac_code := CODE_HALF }

def gW4b : GateSystem :=
  { gOpening with direction := 0, target_code := 0, dac_code := 0 }

example : CODE_NOM = 246 := by with_unfolding_all decide
example : CODE_HALF = 123 := by with_unfolding_all decide
example : CODE_SLOW = 74 := by with_unfolding_all decide
example : adc_code_from_voltage (39/2) = 255 := by with_unfolding_all decide
example : ((GateSystem.init.press_open).1).state = GState.OPENING := by with_unfolding_all decide
example : ((GateSystem.init.press_open).1.update (1/4)).gate.state = GState.OPENING := by with_unfolding_all decide


/-! Frame lemmas for the state-machine operations. -/

lemma GateSystem.start_ramp_state (g : GateSystem) (t : ℤ) (d : ℚ) :
    (g.start_ramp t d).state = g.state := by
  simp only [GateSystem.start_ramp]
  split_ifs <;> rfl

lemma GateSystem.start_ramp_direction (g : GateSystem) (t : ℤ) (d : ℚ) :
    (g.start_ramp t d).direction = g.direction := by
  simp only [GateSystem.start_ramp]
  split_ifs <;> rfl

lemma GateSystem.start_ramp_slow (g : GateSystem) (t : ℤ) (d : ℚ) :
    (g.start_ramp t d).slow_mode_30 = g.slow_mode_30 := by
  simp only [GateSystem.start_ramp]
  split_ifs <;> rfl

lemma GateSystem.start_ramp_dac (g : GateSystem) (t : ℤ) (d : ℚ) :
    (g.start_ramp t d).dac_code = g.dac_code := by
  simp only [GateSystem.start_ramp]
  split_ifs <;> rfl

lemma GateSystem.start_ramp_armed (g : GateSystem) (t : ℤ) (d : ℚ)
    (h : ¬(clampZ t 0 255 = g.target_code ∧ g.ramp.active = true)) :
    (g.start_ramp t d).target_code = clampZ t 0 255 ∧
    (g.start_ramp t d).ramp = Ramp.start g.dac_code (clampZ t 0 255) d ∧
    (g.start_ramp t d).zp_dac_pulse = true := by
  simp only [GateSystem.start_ramp]
  rw [if_neg h]
  exact ⟨rfl, rfl, rfl⟩

lemma GateSystem.emergency_stop_fst_state (g : GateSystem) (r : LogEvent) :
    (g.emergency_stop r).1.state = GState.STOPPED := by
  simp only [GateSystem.emergency_stop]
  rw [GateSystem.start_ramp_state]

lemma GateSystem.emergency_stop_fst_direction (g : GateSystem) (r : LogEvent) :
    (g.emergency_stop r).1.direction = 0 := by
  simp only [GateSystem.emergency_stop]
  rw [GateSystem.start_ramp_direction]

lemma GateSystem.emergency_stop_fst_slow (g : GateSystem) (r : LogEvent) :
    (g.emergency_stop r).1.slow_mode_30 = false := by
  simp only [GateSystem.emergency_stop]
  rw [GateSystem.start_ramp_slow]

lemma GateSystem.emergency_stop_logs (g : GateSystem) (r : LogEvent)
    (h : g.state ≠ GState.STOPPED) :
    (g.emergency_stop r).2 = [r] := by
  simp only [GateSystem.emergency_stop]
  simp [h]

lemma GateSystem.normal_stop_fst_state (g : GateSystem) (r : LogEvent) :
    (g.normal_stop_to_zero r).1.state = g.state := by
  simp only [GateSystem.normal_stop_to_zero]
  rw [GateSystem.start_ramp_state]

lemma GateSystem.normal_stop_fst_direction (g : GateSystem) (r : LogEvent) :
    (g.normal_stop_to_zero r).1.direction = 0 := by
  simp only [GateSystem.normal_stop_to_zero]
  rw [GateSystem.start_ramp_direction]

lemma GateSystem.normal_stop_fst_slow (g : GateSystem) (r : LogEvent) :
    (g.normal_stop_to_zero r).1.slow_mode_30 = false := by
  simp only [GateSystem.normal_stop_to_zero]
  rw [GateSystem.start_ramp_slow]

lemma GateSystem.normal_stop_logs (g : GateSystem) (r : LogEvent) :
    (g.normal_stop_to_zero r).2 = [r] := rfl

/-- `C10`: requesting a ramp whose (clamped) target code equals the installed
target while a ramp is active is a complete no-op — the whole system record,
including the in-flight ramp, the installed target and the pulse flag,
is returned unchanged, whatever duration is requested. -/
theorem start_ramp_same_target_noop (g : GateSystem) (t : ℤ) (d : ℚ)
    (ht : clampZ t 0 255 = g.target_code) (ha : g.ramp.active = true) :
    g.start_ramp t d = g := by
  simp only [GateSystem.start_ramp]
  rw [if_pos ⟨ht, ha⟩]

theorem start_ramp_same_target_noop_witness :
    gW10.start_ramp 50 99 = gW10 :=
  start_ramp_same_target_noop gW10 50 99 (by decide) rfl

/-- `C1`: in a motion state with an obstacle sensor asserted, `control_step`
stops the gate with the obstacle logged as the cause, for every stress value
(in particular also when `stress ≥ TH_95` holds simultaneously). -/
theorem control_step_obstacle_priority (g : GateSystem)
    (hs : g.state = GState.OPENING ∨ g.state = GState.CLOSING)
    (ho : g.uz1 = true ∨ g.uz2 = true) :
    (g.control_step).1.state = GState.STOPPED ∧
    (g.control_step).1.direction = 0 ∧
    (g.control_step).2.2 = [LogEvent.emergencyObstacle] := by
  have hor : (g.uz1 || g.uz2) = true := by
    rcases ho with h | h <;> simp [h]
  rcases hs with h | h <;>
    simp [GateSystem.control_step, h, hor, GateSystem.emergency_stop_fst_state,
      GateSystem.emergency_stop_fst_direction, GateSystem.emergency_stop_logs]

theorem control_step_obstacle_priority_witness :
    (gW1.control_step).1.state = GState.STOPPED ∧
    (gW1.control_step).1.direction = 0 ∧
    (gW1.control_step).2.2 = [LogEvent.emergencyObstacle] :=
  control_step_obstacle_priority gW1 (Or.inl rfl) (Or.inl rfl)

/-- `C3` counterexample: the output port word carries no direction bit.
With the gate `Opening` (`direction = 1`) the claimed layout requires bit 8
of the output word to be `1`, but `build_port301` leaves bit 8 clear. -/
theorem build_port301_no_direction_bit :
    gW3.direction = 1 ∧ gW3.state = GState.OPENING ∧
    (gW3.build_port301).testBit 8 = false := by
  refine ⟨rfl, rfl, ?_⟩
  decide

/-- `C3` amended: the output word layout is bits 0-7 = low byte of the
commanded-voltage code, bit 14 = "new ramp armed" pulse, bit 15 = "sample
taken" pulse, and every other bit — including bit 8 — is `0`; the direction
is not encoded in the output word. -/
theorem build_port301_layout (g : GateSystem) :
    (∀ i : ℕ, i ≤ 7 →
      (g.build_port301).testBit i = ((g.dac_code % 256).toNat).testBit i) ∧
    (∀ i : ℕ, 8 ≤ i → i ≤ 13 → (g.build_port301).testBit i = false) ∧
    (g.build_port301).testBit 14 = g.zp_dac_pulse ∧
    (g.build_port301).testBit 15 = g.zp_adc_pulse ∧
    (∀ i : ℕ, 16 ≤ i → (g.build_port301).testBit i = false) := by
  have hlow : (g.dac_code % 256).toNat < 256 := by omega
  have hbit : ∀ i : ℕ, 8 ≤ i → ((g.dac_code % 256).toNat).testBit i = false := by
    intro i hi
    refine Nat.testBit_lt_two_pow (lt_of_lt_of_le hlow ?_)
    calc (256 : ℕ) = 2 ^ 8 := by norm_num
    _ ≤ 2 ^ i := Nat.pow_le_pow_right (by norm_num) hi
  have hp14 : ((1:ℕ) <<< 14) = 2 ^ 14 := by norm_num [Nat.shiftLeft_eq]
  have hp15 : ((1:ℕ) <<< 15) = 2 ^ 15 := by norm_num [Nat.shiftLeft_eq]
  have h14 : ∀ i : ℕ, ((if g.zp_dac_pulse then 1 else 0) <<< 14 : ℕ).testBit i =
      (g.zp_dac_pulse && decide (i = 14)) := by
    intro i
    cases hz : g.zp_dac_pulse
    · simp [hz]
    · rw [if_pos rfl, hp14, Nat.testBit_two_pow]
      simp [eq_comm]
  have h15 : ∀ i : ℕ, ((if g.zp_adc_pulse then 1 else 0) <<< 15 : ℕ).testBit i =
      (g.zp_adc_pulse && decide (i = 15)) := by
    intro i
    cases hz : g.zp_adc_pulse
    · simp [hz]
    · rw [if_pos rfl, hp15, Nat.testBit_two_pow]
      simp [eq_comm]
  refine ⟨?_, ?_, ?_, ?_, ?_⟩
  · intro i hi
    have e1 : i ≠ 14 := by omega
    have e2 : i ≠ 15 := by omega
    simp [GateSystem.build_port301, Nat.testBit_lor, h14, h15, e1, e2]
  · intro i h8 h13
    have e1 : i ≠ 14 := by omega
    have e2 : i ≠ 15 := by omega
    simp [GateSystem.build_port301, Nat.testBit_lor, h14, h15, e1, e2, hbit i h8]
  · simp [GateSystem.build_port301, Nat.testBit_lor, h14, h15, hbit 14 (by norm_num)]
  · simp [GateSystem.build_port301, Nat.testBit_lor, h14, h15, hbit 15 (by norm_num)]
  · intro i h16
    have e1 : i ≠ 14 := by omega
    have e2 : i ≠ 15 := by omega
    simp [GateSystem.build_port301, Nat.testBit_lor, h14, h15, e1, e2, hbit i (by omega)]

/-! `STOPPED` preservation lemmas. -/

lemma GateSystem.control_step_stopped (g : GateSystem)
    (h : g.state = GState.STOPPED) :
    (g.control_step).1.state = GState.STOPPED := by
  simp [GateSystem.control_step, h]

lemma GateSystem.run_samples_stopped :
    ∀ (n : ℕ) (g : GateSystem) (adc : ℤ), g.state = GState.STOPPED →
      (GateSystem.run_samples n g adc).1.state = GState.STOPPED := by
  intro n
  induction n with
  | zero => intro g adc h; exact h
  | succ n ih =>
    intro g adc h
    simp only [GateSystem.run_samples]
    exact ih _ _ (GateSystem.control_step_stopped _ h)

lemma GateSystem.pre_sample_state (g : GateSystem) (dt : ℚ) :
    (g.pre_sample dt).state = g.state := by
  simp only [GateSystem.pre_sample, GateSystem.update_limits_from_position]
  split_ifs <;> rfl

lemma GateSystem.update_stopped (g : GateSystem) (dt : ℚ)
    (h : g.state = GState.STOPPED) :
    (g.update dt).gate.state = GState.STOPPED := by
  have hpre : (g.pre_sample dt).state = GState.STOPPED := by
    rw [GateSystem.pre_sample_state, h]
  have hrun : (GateSystem.run_samples
      ((⌊(g.pre_sample dt).sample_timer / SAMPLE_PERIOD⌋).toNat)
      (g.pre_sample dt) 0).1.state = GState.STOPPED :=
    GateSystem.run_samples_stopped _ _ _ hpre
  simp only [GateSystem.update]
  split_ifs <;> first | exact hrun | exact absurd hrun (by assumption)

lemma applyOp_stopped (g : GateSystem) (op : SensorOp)
    (h : g.state = GState.STOPPED) :
    (applyOp g op).state = GState.STOPPED := by
  cases op with
  | setUz1 b => exact h
  | setUz2 b => exact h
  | setStress s => exact h
  | setPosition p => exact h
  | resetAll => exact h
  | tick dt => exact GateSystem.update_stopped g dt h
  | sample => exact GateSystem.control_step_stopped g h

/-- `C2`: `STOPPED` is latched.  No sequence of sensor pokes, raw control
steps or full simulation ticks ever leaves `STOPPED`; the open and close
buttons do transition out of it. -/
theorem stopped_latched (g : GateSystem) (ops : List SensorOp)
    (h : g.state = GState.STOPPED) :
    (applyOps g ops).state = GState.STOPPED ∧
    (g.press_open).1.state = GState.OPENING ∧
    (g.press_close).1.state = GState.CLOSING := by
  refine ⟨?_, ?_, ?_⟩
  · induction ops generalizing g with
    | nil => exact h
    | cons op ops ih =>
      exact ih _ (applyOp_stopped g op h)
  · simp [GateSystem.press_open, h, GateSystem.start_ramp_state]
  · simp [GateSystem.press_close, h, GateSystem.start_ramp_state]

theorem stopped_latched_witness :
    (applyOps gStopped
      [SensorOp.setUz1 false, SensorOp.setUz2 false, SensorOp.setStress 0,
       SensorOp.setPosition 1, SensorOp.resetAll, SensorOp.sample,
       SensorOp.tick (1/4), SensorOp.tick 10]).state = GState.STOPPED ∧
    (gStopped.press_open).1.state = GState.OPENING ∧
    (gStopped.press_close).1.state = GState.CLOSING :=
  stopped_latched gStopped _ rfl

lemma clampZ_code_half : clampZ CODE_HALF 0 255 = CODE_HALF := by
  with_unfolding_all decide

/-- `C7`: while moving and not in slow mode, the limit-switch-1 deceleration
ramp to `CODE_HALF` over `RAMP_DOWN_SEC` is issued on a control step exactly
when the installed target exceeds `CODE_HALF`; afterwards the decision is
idempotent — a second control step with the same sensors changes nothing —
and when the target is already at or below `CODE_HALF` the step changes
nothing but the sampling flags. -/
theorem limit1_decel_one_shot (g : GateSystem)
    (hu1 : g.uz1 = false) (hu2 : g.uz2 = false)
    (hst : g.stress < TH_70) (hsl : g.slow_mode_30 = false) :
    (g.state = GState.OPENING → g.kv_o2 = false → g.kv_o1 = true →
      (CODE_HALF < g.target_code →
        (g.control_step).1.target_code = CODE_HALF ∧
        (g.control_step).1.ramp = Ramp.start g.dac_code CODE_HALF RAMP_DOWN_SEC ∧
        (g.control_step).1.zp_dac_pulse = true ∧
        (g.control_step).2.2 = [LogEvent.openDecel] ∧
        ((g.control_step).1.control_step).1 = (g.control_step).1) ∧
      (g.target_code ≤ CODE_HALF →
        (g.control_step).1 = { g with zp_adc_pulse := true, gt_flag := true })) ∧
    (g.state = GState.CLOSING → g.kv_z2 = false → g.kv_z1 = true →
      (CODE_HALF < g.target_code →
        (g.control_step).1.target_code = CODE_HALF ∧
        (g.control_step).1.ramp = Ramp.start g.dac_code CODE_HALF RAMP_DOWN_SEC ∧
        (g.control_step).1.zp_dac_pulse = true ∧
        (g.control_step).2.2 = [LogEvent.closeDecel] ∧
        ((g.control_step).1.control_step).1 = (g.control_step).1) ∧
      (g.target_code ≤ CODE_HALF →
        (g.control_step).1 = { g with zp_adc_pulse := true, gt_flag := true })) := by
  have h95 : ¬ g.stress ≥ TH_95 := by
    simp only [TH_70, TH_95] at hst ⊢
    intro hc
    linarith
  have h70 : ¬ g.stress ≥ TH_70 := not_le.2 hst
  constructor
  · intro hs ho2 ho1
    constructor
    · intro hgt
      have hne : ¬(CODE_HALF = g.target_code ∧ g.ramp.active = true) :=
        fun hc => absurd hc.1 (ne_of_lt hgt)
      simp [GateSystem.control_step, GateSystem.start_ramp, hs, hu1, hu2, h95,
        h70, hsl, ho1, ho2, hne, hgt, clampZ_code_half, lt_irrefl]
    · intro hle
      have hnlt : ¬ CODE_HALF < g.target_code := not_lt.2 hle
      simp [GateSystem.control_step, hs, hu1, hu2, h95, h70, hsl, ho1, ho2, hnlt]
  · intro hs hz2 hz1
    constructor
    · intro hgt
      have hne : ¬(CODE_HALF = g.target_code ∧ g.ramp.active = true) :=
        fun hc => absurd hc.1 (ne_of_lt hgt)
      simp [GateSystem.control_step, GateSystem.start_ramp, hs, hu1, hu2, h95,
        h70, hsl, hz1, hz2, hne, hgt, clampZ_code_half, lt_irrefl]
    · intro hle
      have hnlt : ¬ CODE_HALF < g.target_code := not_lt.2 hle
      simp [GateSystem.control_step, hs, hu1, hu2, h95, h70, hsl, hz1, hz2, hnlt]

/-- `C5` counterexample: slow mode does not stay true on every control step
with force ≥ `TH_55`, and force < `TH_55` is not the only way it clears.
Here, while `Opening` in slow mode at stress 60 (≥ 55) with limit switch
`KV_O2` asserted, the end-of-travel stop clears `slow_mode_30`. -/
theorem slow_mode_cleared_at_stress60 :
    gC5.slow_mode_30 = true ∧ TH_55 ≤ gC5.stress ∧ gC5.state = GState.OPENING ∧
    (gC5.control_step).1.slow_mode_30 = false := by
  refine ⟨rfl, by with_unfolding_all decide, rfl, by with_unfolding_all decide⟩

lemma clampZ_code_nom : clampZ CODE_NOM 0 255 = CODE_NOM := by
  with_unfolding_all decide

lemma code_nom_ne_slow : CODE_NOM ≠ CODE_SLOW := by
  with_unfolding_all decide

lemma code_half_ne_slow : CODE_HALF ≠ CODE_SLOW := by
  with_unfolding_all decide

/-- `C5` amended: slow-mode hysteresis on force, for control steps that do
not trigger an emergency or end-of-travel stop.  In a motion state with no
obstacle and stress < `TH_95`: slow mode is entered at stress ≥ `TH_70`;
it persists at stress ≥ `TH_55` as long as the direction's second limit
switch is not asserted; and at stress < `TH_55` it clears, re-arming an
acceleration ramp to the nominal-or-half target over `RAMP_UP_SEC`. -/
theorem slow_mode_hysteresis (g : GateSystem)
    (hu1 : g.uz1 = false) (hu2 : g.uz2 = false) (h95 : g.stress < TH_95)
    (hmot : g.state = GState.OPENING ∨ g.state = GState.CLOSING) :
    (TH_70 ≤ g.stress → g.slow_mode_30 = false →
      (g.control_step).1.slow_mode_30 = true) ∧
    (g.slow_mode_30 = true → TH_55 ≤ g.stress →
      ¬(g.state = GState.OPENING ∧ g.kv_o2 = true) →
      ¬(g.state = GState.CLOSING ∧ g.kv_z2 = true) →
      (g.control_step).1.slow_mode_30 = true) ∧
    (g.slow_mode_30 = true → g.stress < TH_55 → g.target_code = CODE_SLOW →
      (g.control_step).1.slow_mode_30 = false ∧
      (g.control_step).1.target_code = g.nominal_target_code ∧
      (g.control_step).1.ramp =
        Ramp.start g.dac_code g.nominal_target_code RAMP_UP_SEC ∧
      (g.control_step).1.zp_dac_pulse = true ∧
      (g.control_step).2.2 = [LogEvent.slowExit]) := by
  have h95' : ¬ g.stress ≥ TH_95 := not_le.2 h95
  refine ⟨?_, ?_, ?_⟩
  · intro h70 hsl
    rcases hmot with hs | hs <;>
      simp [GateSystem.control_step, hs, hu1, hu2, h95', h70, hsl,
        GateSystem.start_ramp_slow]
  · intro hsl h55 hnko hnkz
    rcases le_or_lt TH_70 g.stress with h70 | h70
    · rcases hmot with hs | hs <;>
        simp [GateSystem.control_step, hs, hu1, hu2, h95', h70, hsl]
    · have h55' : ¬ g.stress < TH_55 := not_lt.2 h55
      have h70' : ¬ g.stress ≥ TH_70 := not_le.2 h70
      rcases hmot with hs | hs
      · have hko2 : g.kv_o2 = false := by
          cases hk : g.kv_o2
          · rfl
          · exact absurd ⟨hs, hk⟩ hnko
        simp [GateSystem.control_step, hs, hu1, hu2, h95', h70', h55', hsl, hko2,
          GateSystem.start_ramp_slow]
      · have hkz2 : g.kv_z2 = false := by
          cases hk : g.kv_z2
          · rfl
          · exact absurd ⟨hs, hk⟩ hnkz
        simp [GateSystem.control_step, hs, hu1, hu2, h95', h70', h55', hsl, hkz2,
          GateSystem.start_ramp_slow]
  · intro hsl h55 htc
    have h70' : ¬ g.stress ≥ TH_70 := by
      simp only [TH_55, TH_70] at h55 ⊢
      intro hc
      linarith
    rcases hmot with hs | hs
    · cases hk : g.kv_o1 <;>
        simp [GateSystem.control_step, GateSystem.start_ramp,
          GateSystem.nominal_target_code, hs, hk, hu1, hu2, h95', h70', h55, hsl,
          htc, clampZ_code_half, clampZ_code_nom, code_nom_ne_slow,
          code_half_ne_slow]
    · cases hk : g.kv_z1 <;>
        simp [GateSystem.control_step, GateSystem.start_ramp,
          GateSystem.nominal_target_code, hs, hk, hu1, hu2, h95', h70', h55, hsl,
          htc, clampZ_code_half, clampZ_code_nom, code_nom_ne_slow,
          code_half_ne_slow]

theorem slow_mode_hysteresis_witness :
    ((gW5.control_step).1.slow_mode_30 = true) ∧
    ((gW5b.control_step).1.slow_mode_30 = true) ∧
    ((gW5c.control_step).1.slow_mode_30 = false) := by
  refine ⟨?_, ?_, ?_⟩
  · exact (slow_mode_hysteresis gW5 rfl rfl (by with_unfolding_all decide)
      (Or.inl rfl)).1 (by with_unfolding_all decide) rfl
  · exact (slow_mode_hysteresis gW5b rfl rfl (by with_unfolding_all decide)
      (Or.inl rfl)).2.1 rfl (by with_unfolding_all decide)
      (by decide) (by decide)
  · exact ((slow_mode_hysteresis gW5c rfl rfl (by with_unfolding_all decide)
      (Or.inl rfl)).2.2 rfl (by with_unfolding_all decide) rfl).1

theorem limit1_decel_one_shot_witness :
    (gW7.control_step).1.target_code = CODE_HALF ∧
    ((gW7.control_step).1.control_step).1 = (gW7.control_step).1 := by
  have h := ((limit1_decel_one_shot gW7 rfl rfl (by with_unfolding_all decide)
    rfl).1 rfl rfl rfl).1 (by with_unfolding_all decide)
  exact ⟨h.1, h.2.2.2.2⟩

/-! Auxiliary frame lemmas for `pre_sample`. -/

lemma GateSystem.pre_sample_direction (g : GateSystem) (dt : ℚ) :
    (g.pre_sample dt).direction = g.direction := by
  simp only [GateSystem.pre_sample, GateSystem.update_limits_from_position]
  split_ifs <;> rfl

lemma GateSystem.pre_sample_target (g : GateSystem) (dt : ℚ) :
    (g.pre_sample dt).target_code = g.target_code := by
  simp only [GateSystem.pre_sample, GateSystem.update_limits_from_position]
  split_ifs <;> rfl

lemma GateSystem.pre_sample_timer (g : GateSystem) (dt : ℚ) :
    (g.pre_sample dt).sample_timer = g.sample_timer + dt := by
  simp only [GateSystem.pre_sample, GateSystem.update_limits_from_position]
  split_ifs <;> rfl

lemma GateSystem.pre_sample_ramp_inactive (g : GateSystem) (dt : ℚ)
    (h : g.ramp.active = false) :
    (g.pre_sample dt).ramp = g.ramp := by
  simp only [GateSystem.pre_sample, GateSystem.update_limits_from_position, h]
  split_ifs <;> first | rfl | simp [Ramp.update, h]

lemma clampZ_zero : clampZ 0 0 255 = 0 := by decide

/-- `C4`: when `KV_O2` asserts while `Opening` (and no higher-priority
emergency fires), the control step issues a ramp from the current commanded
code to `0` over `RAMP_DOWN_SEC` without latching (`state` stays `OPENING`,
not `STOPPED`); once that ramp has run out, the next tick with no pending
sample moves the controller to `IDLE`; and from `IDLE` an open button press
is accepted immediately. -/
theorem limit2_full_travel_stop :
    (∀ g : GateSystem, g.state = GState.OPENING → g.kv_o2 = true →
      g.uz1 = false → g.uz2 = false → g.stress < TH_70 →
      g.slow_mode_30 = false → g.target_code ≠ 0 →
      (g.control_step).1.state = GState.OPENING ∧
      (g.control_step).1.direction = 0 ∧
      (g.control_step).1.target_code = 0 ∧
      (g.control_step).1.ramp = Ramp.start g.dac_code 0 RAMP_DOWN_SEC ∧
      (g.control_step).2.2 = [LogEvent.openEndStop]) ∧
    (∀ (g : GateSystem) (dt : ℚ), g.state = GState.OPENING → g.direction = 0 →
      g.target_code = 0 → g.ramp.active = false →
      g.sample_timer + dt < SAMPLE_PERIOD →
      (g.update dt).gate.state = GState.IDLE) ∧
    (∀ g : GateSystem, g.state = GState.IDLE →
      (g.press_open).1.state = GState.OPENING ∧
      (g.press_open).1.direction = 1) := by
  refine ⟨?_, ?_, ?_⟩
  · intro g hs hk2 hu1 hu2 hst hsl htc
    have h95' : ¬ g.stress ≥ TH_95 := by
      simp only [TH_70, TH_95] at hst ⊢
      intro hc
      linarith
    have h70' : ¬ g.stress ≥ TH_70 := not_le.2 hst
    have hne : ¬((0:ℤ) = g.target_code ∧ g.ramp.active = true) :=
      fun hc => htc hc.1.symm
    simp [GateSystem.control_step, GateSystem.normal_stop_to_zero,
      GateSystem.start_ramp, CODE_ZERO, hs, hk2, hu1, hu2, h95', h70', hsl, hne,
      clampZ_zero]
  · intro g dt hs hdir htc hra htimer
    have hst : (g.pre_sample dt).state = GState.OPENING := by
      rw [GateSystem.pre_sample_state, hs]
    have hd : (g.pre_sample dt).direction = 0 := by
      rw [GateSystem.pre_sample_direction, hdir]
    have ht : (g.pre_sample dt).target_code = 0 := by
      rw [GateSystem.pre_sample_target, htc]
    have hr : (g.pre_sample dt).ramp = g.ramp :=
      g.pre_sample_ramp_inactive dt hra
    have hn : (⌊(g.pre_sample dt).sample_timer / SAMPLE_PERIOD⌋).toNat = 0 := by
      rw [GateSystem.pre_sample_timer]
      have hq : (g.sample_timer + dt) / SAMPLE_PERIOD < 1 := by
        rw [div_lt_one (by norm_num [SAMPLE_PERIOD])]
        simpa [SAMPLE_PERIOD] using htimer
      have hfl : ⌊(g.sample_timer + dt) / SAMPLE_PERIOD⌋ < 1 :=
        Int.floor_lt.2 (by exact_mod_cast hq)
      omega
    simp [GateSystem.update, hn, GateSystem.run_samples, hst, hd, ht, hr, hra]
  · intro g hs
    simp [GateSystem.press_open, hs, GateSystem.start_ramp_state,
      GateSystem.start_ramp_direction]

theorem limit2_full_travel_stop_witness :
    ((gW4.control_step).1.state = GState.OPENING ∧
      (gW4.control_step).1.direction = 0 ∧
      (gW4.control_step).1.target_code = 0 ∧
      (gW4.control_step).1.ramp = Ramp.start gW4.dac_code 0 RAMP_DOWN_SEC ∧
      (gW4.control_step).2.2 = [LogEvent.openEndStop]) ∧
    (gW4b.update (1/10)).gate.state = GState.IDLE ∧
    (GateSystem.init.press_open).1.state = GState.OPENING := by
  refine ⟨?_, ?_, ?_⟩
  · exact limit2_full_travel_stop.1 gW4 rfl rfl rfl rfl
      (by with_unfolding_all decide) rfl (by with_unfolding_all decide)
  · exact limit2_full_travel_stop.2.1 gW4b (1/10) rfl rfl rfl rfl
      (by with_unfolding_all decide)
  · exact (limit2_full_travel_stop.2.2 GateSystem.init rfl).1

/-! Arithmetic lemmas about `pyRound` and `clamp`. -/

lemma pyRound_ge_floor (q : ℚ) : ⌊q⌋ ≤ pyRound q := by
  simp only [pyRound]
  split_ifs <;> omega

lemma pyRound_le_floor_add_one (q : ℚ) : pyRound q ≤ ⌊q⌋ + 1 := by
  simp only [pyRound]
  split_ifs <;> omega

lemma pyRound_intCast (n : ℤ) : pyRound (n : ℚ) = n := by
  simp only [pyRound, Int.floor_intCast, sub_self]
  rw [if_pos (by norm_num)]

lemma pyRound_mono {p q : ℚ} (h : p ≤ q) : pyRound p ≤ pyRound q := by
  rcases lt_or_eq_of_le (Int.floor_le_floor h) with hf | hf
  · calc pyRound p ≤ ⌊p⌋ + 1 := pyRound_le_floor_add_one p
    _ ≤ ⌊q⌋ := by omega
    _ ≤ pyRound q := pyRound_ge_floor q
  · have hr : p - (⌊p⌋ : ℚ) ≤ q - (⌊p⌋ : ℚ) := by linarith
    simp only [pyRound, ← hf]
    split_ifs <;> first | omega | (exfalso; linarith)

lemma pyRound_sub_abs (q : ℚ) : |(pyRound q : ℚ) - q| ≤ 1/2 := by
  have h1 := Int.floor_le q
  have h2 := Int.lt_floor_add_one q
  simp only [pyRound]
  rw [abs_le]
  split_ifs <;> constructor <;> push_cast <;> linarith

lemma clamp_le_hi (x a b : ℚ) (hab : a ≤ b) : clamp x a b ≤ b := by
  simp only [clamp]
  split_ifs <;> linarith

lemma lo_le_clamp (x a b : ℚ) (hab : a ≤ b) : a ≤ clamp x a b := by
  simp only [clamp]
  split_ifs <;> linarith

lemma clamp_mono (a b : ℚ) (hab : a ≤ b) {x y : ℚ} (h : x ≤ y) :
    clamp x a b ≤ clamp y a b := by
  simp only [clamp]
  split_ifs <;> linarith

lemma clamp_of_le_lo (x a b : ℚ) (h : x ≤ a) (hab : a ≤ b) : clamp x a b = a := by
  simp only [clamp]
  split_ifs <;> linarith

lemma clamp_of_hi_le (x a b : ℚ) (h : b ≤ x) (hab : a ≤ b) : clamp x a b = b := by
  simp only [clamp]
  split_ifs <;> linarith

/-- `C8`: the quantizer saturates (never wraps) on out-of-range input, is
monotone non-decreasing, rounds to nearest (within 1/2 code of the exact
scaling), and decode∘encode is the identity at the two range endpoints
(`0 ↦ code 0 ↦ 0`, `hi ↦ max code ↦ hi`); `adc_code_from_voltage` and
`dac_voltage_from_code` are instances of this quantizer. -/
theorem quantizer_saturation_roundtrip (hi : ℚ) (bits : ℕ)
    (hhi : 0 < hi) (hb : 0 < bits) :
    (∀ v : ℚ, 0 ≤ q_encode v hi bits ∧ q_encode v hi bits ≤ 2 ^ bits - 1) ∧
    (∀ v w : ℚ, v ≤ w → q_encode v hi bits ≤ q_encode w hi bits) ∧
    (∀ v : ℚ, v ≤ 0 → q_encode v hi bits = 0) ∧
    (∀ v : ℚ, hi ≤ v → q_encode v hi bits = 2 ^ bits - 1) ∧
    (∀ v : ℚ, |((q_encode v hi bits : ℚ)) -
        clamp v 0 hi / hi * ((2:ℚ) ^ bits - 1)| ≤ 1/2) ∧
    q_decode (q_encode 0 hi bits) hi bits = 0 ∧
    q_decode (q_encode hi hi bits) hi bits = hi ∧
    adc_code_from_voltage = (fun u => q_encode u ADC_VREF ADC_BITS) ∧
    dac_voltage_from_code = (fun c => q_decode c DAC_VMAX DAC_BITS) := by
  have hM1 : (1:ℚ) ≤ (2:ℚ) ^ bits - 1 := by
    have : (2:ℚ) ^ 1 ≤ (2:ℚ) ^ bits := by
      apply pow_le_pow_right₀ (by norm_num)
      omega
    simpa using by linarith [this]
  have hM0 : (0:ℚ) ≤ (2:ℚ) ^ bits - 1 := by linarith
  have hcast : (((2:ℤ) ^ bits - 1 : ℤ) : ℚ) = (2:ℚ) ^ bits - 1 := by push_cast; ring
  have henc_lo : ∀ v : ℚ, v ≤ 0 → q_encode v hi bits = 0 := by
    intro v hv
    simp only [q_encode]
    rw [clamp_of_le_lo v 0 hi hv (le_of_lt hhi), zero_div, zero_mul]
    exact_mod_cast pyRound_intCast 0
  have henc_hi : ∀ v : ℚ, hi ≤ v → q_encode v hi bits = 2 ^ bits - 1 := by
    intro v hv
    simp only [q_encode]
    rw [clamp_of_hi_le v 0 hi hv (le_of_lt hhi), div_self (ne_of_gt hhi), one_mul]
    rw [← hcast, pyRound_intCast]
  have hmono : ∀ v w : ℚ, v ≤ w → q_encode v hi bits ≤ q_encode w hi bits := by
    intro v w hvw
    apply pyRound_mono
    apply mul_le_mul_of_nonneg_right _ hM0
    rw [div_le_div_iff_of_pos_right hhi]
    exact clamp_mono 0 hi (le_of_lt hhi) hvw
  refine ⟨?_, hmono, henc_lo, henc_hi, ?_, ?_, ?_, rfl, rfl⟩
  · intro v
    constructor
    · have h0 : q_encode 0 hi bits = 0 := henc_lo 0 le_rfl
      calc (0:ℤ) = q_encode 0 hi bits := h0.symm
      _ ≤ q_encode v hi bits := by
          rcases le_or_lt 0 v with hv | hv
          · exact hmono 0 v hv
          · rw [henc_lo v (le_of_lt hv), h0]
    · have hh : q_encode hi hi bits = 2 ^ bits - 1 := henc_hi hi le_rfl
      calc q_encode v hi bits ≤ q_encode (max v hi) hi bits :=
          hmono _ _ (le_max_left _ _)
      _ = 2 ^ bits - 1 := henc_hi _ (le_max_right _ _)
  · intro v
    exact pyRound_sub_abs _
  · rw [henc_lo 0 le_rfl]
    simp [q_decode]
  · rw [henc_hi hi le_rfl]
    simp only [q_decode, hcast]
    rw [div_self (by linarith), one_mul]

theorem quantizer_saturation_roundtrip_witness :
    q_decode (q_encode ADC_VREF ADC_VREF ADC_BITS) ADC_VREF ADC_BITS = ADC_VREF ∧
    q_encode 25 ADC_VREF ADC_BITS = 2 ^ ADC_BITS - 1 ∧
    q_decode (q_encode 0 DAC_VMAX DAC_BITS) DAC_VMAX DAC_BITS = 0 := by
  refine ⟨?_, ?_, ?_⟩
  · exact (quantizer_saturation_roundtrip ADC_VREF ADC_BITS
      (by norm_num [ADC_VREF]) (by norm_num [ADC_BITS])).2.2.2.2.2.2.1
  · exact (quantizer_saturation_roundtrip ADC_VREF ADC_BITS
      (by norm_num [ADC_VREF]) (by norm_num [ADC_BITS])).2.2.2.1 25
      (by norm_num [ADC_VREF])
  · exact (quantizer_saturation_roundtrip DAC_VMAX DAC_BITS
      (by norm_num [DAC_VMAX]) (by norm_num [DAC_BITS])).2.2.2.2.2.1

/-! Pulse-flag lemmas. -/

lemma GateSystem.start_ramp_zp_adc (g : GateSystem) (t : ℤ) (d : ℚ) :
    (g.start_ramp t d).zp_adc_pulse = g.zp_adc_pulse := by
  simp only [GateSystem.start_ramp]
  split_ifs <;> rfl

lemma GateSystem.start_ramp_timer (g : GateSystem) (t : ℤ) (d : ℚ) :
    (g.start_ramp t d).sample_timer = g.sample_timer := by
  simp only [GateSystem.start_ramp]
  split_ifs <;> rfl

lemma GateSystem.control_step_zp_adc (g : GateSystem) :
    (g.control_step).1.zp_adc_pulse = true := by
  by_cases c1 : g.state = GState.OPENING ∨ g.state = GState.CLOSING
  · by_cases c2 : (g.uz1 || g.uz2) = true
    · simp [GateSystem.control_step, GateSystem.emergency_stop, c1, c2,
        GateSystem.start_ramp_zp_adc]
    · by_cases c3 : g.stress ≥ TH_95
      · simp [GateSystem.control_step, GateSystem.emergency_stop, c1, c2, c3,
          GateSystem.start_ramp_zp_adc]
      · by_cases c4 : g.stress ≥ TH_70
        · by_cases c5 : g.slow_mode_30 = false
          · simp [GateSystem.control_step, c1, c2, c3, c4, c5,
              GateSystem.start_ramp_zp_adc]
          · simp [GateSystem.control_step, c1, c2, c3, c4, c5]
        · by_cases c6 : g.slow_mode_30 = true ∧ g.stress < TH_55
          · simp [GateSystem.control_step, c1, c2, c3, c4, c6,
              GateSystem.start_ramp_zp_adc]
          · rcases c1 with h | h
            · by_cases c8 : g.kv_o2 = true
              · simp [GateSystem.control_step, GateSystem.normal_stop_to_zero,
                  h, c2, c3, c4, c6, c8, GateSystem.start_ramp_zp_adc]
              · by_cases c9 : g.kv_o1 = true ∧ g.slow_mode_30 = false
                · by_cases c10 : g.target_code > CODE_HALF
                  · simp [GateSystem.control_step, h, c2, c3, c4, c6, c8, c9,
                      c10, GateSystem.start_ramp_zp_adc]
                  · simp [GateSystem.control_step, h, c2, c3, c4, c6, c8, c9,
                      c10]
                · simp [GateSystem.control_step, h, c2, c3, c4, c6, c8, c9]
            · by_cases c8 : g.kv_z2 = true
              · simp [GateSystem.control_step, GateSystem.normal_stop_to_zero,
                  h, c2, c3, c4, c6, c8, GateSystem.start_ramp_zp_adc]
              · by_cases c9 : g.kv_z1 = true ∧ g.slow_mode_30 = false
                · by_cases c10 : g.target_code > CODE_HALF
                  · simp [GateSystem.control_step, h, c2, c3, c4, c6, c8, c9,
                      c10, GateSystem.start_ramp_zp_adc]
                  · simp [GateSystem.control_step, h, c2, c3, c4, c6, c8, c9,
                      c10]
                · simp [GateSystem.control_step, h, c2, c3, c4, c6, c8, c9]
  · simp [GateSystem.control_step, c1]

lemma GateSystem.pre_sample_zp_dac (g : GateSystem) (dt : ℚ) :
    (g.pre_sample dt).zp_dac_pulse = false := by
  simp only [GateSystem.pre_sample, GateSystem.update_limits_from_position]
  split_ifs <;> rfl

lemma GateSystem.pre_sample_zp_adc (g : GateSystem) (dt : ℚ) :
    (g.pre_sample dt).zp_adc_pulse = false := by
  simp only [GateSystem.pre_sample, GateSystem.update_limits_from_position]
  split_ifs <;> rfl

lemma port301_bit14 (g : GateSystem) :
    (g.build_port301).testBit 14 = g.zp_dac_pulse := by
  have hlow : (g.dac_code % 256).toNat < 256 := by omega
  have hb : ((g.dac_code % 256).toNat).testBit 14 = false :=
    Nat.testBit_lt_two_pow (lt_of_lt_of_le hlow (by norm_num))
  have hp14 : ((1:ℕ) <<< 14) = 2 ^ 14 := by norm_num [Nat.shiftLeft_eq]
  have hp15 : ((1:ℕ) <<< 15) = 2 ^ 15 := by norm_num [Nat.shiftLeft_eq]
  cases h1 : g.zp_dac_pulse <;> cases h2 : g.zp_adc_pulse <;>
    (simp [GateSystem.build_port301, Nat.testBit_lor, h1, h2, hb, hp14, hp15,
      Nat.testBit_two_pow]) <;> decide

lemma port301_bit15 (g : GateSystem) :
    (g.build_port301).testBit 15 = g.zp_adc_pulse := by
  have hlow : (g.dac_code % 256).toNat < 256 := by omega
  have hb : ((g.dac_code % 256).toNat).testBit 15 = false :=
    Nat.testBit_lt_two_pow (lt_of_lt_of_le hlow (by norm_num))
  have hp14 : ((1:ℕ) <<< 14) = 2 ^ 14 := by norm_num [Nat.shiftLeft_eq]
  have hp15 : ((1:ℕ) <<< 15) = 2 ^ 15 := by norm_num [Nat.shiftLeft_eq]
  cases h1 : g.zp_dac_pulse <;> cases h2 : g.zp_adc_pulse <;>
    (simp [GateSystem.build_port301, Nat.testBit_lor, h1, h2, hb, hp14, hp15,
      Nat.testBit_two_pow]) <;> decide

lemma GateSystem.update_port301_eq (g : GateSystem) (dt : ℚ) :
    (g.update dt).port301 = (g.update dt).gate.build_port301 := rfl

lemma GateSystem.sample_count_zero (g : GateSystem) (dt : ℚ)
    (h : g.sample_timer + dt < SAMPLE_PERIOD) :
    (⌊(g.pre_sample dt).sample_timer / SAMPLE_PERIOD⌋).toNat = 0 := by
  rw [GateSystem.pre_sample_timer]
  have hq : (g.sample_timer + dt) / SAMPLE_PERIOD < 1 := by
    rw [div_lt_one (by norm_num [SAMPLE_PERIOD])]
    simpa [SAMPLE_PERIOD] using h
  have hfl : ⌊(g.sample_timer + dt) / SAMPLE_PERIOD⌋ < 1 :=
    Int.floor_lt.2 (by exact_mod_cast hq)
  omega

lemma GateSystem.update_no_sample_pulses (g : GateSystem) (dt : ℚ)
    (h : g.sample_timer + dt < SAMPLE_PERIOD) :
    (g.update dt).gate.zp_dac_pulse = false ∧
    (g.update dt).gate.zp_adc_pulse = false := by
  have hn := g.sample_count_zero dt h
  simp only [GateSystem.update, hn, GateSystem.run_samples]
  constructor <;>
    (split_ifs <;>
      simp [GateSystem.pre_sample_zp_dac, GateSystem.pre_sample_zp_adc])

lemma GateSystem.sample_count_one (g : GateSystem) (dt : ℚ)
    (h1 : SAMPLE_PERIOD ≤ g.sample_timer + dt)
    (h2 : g.sample_timer + dt < 2 * SAMPLE_PERIOD) :
    (⌊(g.pre_sample dt).sample_timer / SAMPLE_PERIOD⌋).toNat = 1 := by
  rw [GateSystem.pre_sample_timer]
  have hsp : (0:ℚ) < SAMPLE_PERIOD := by norm_num [SAMPLE_PERIOD]
  have hlo : (1:ℚ) ≤ (g.sample_timer + dt) / SAMPLE_PERIOD := by
    rw [le_div_iff₀ hsp]
    linarith
  have hhi : (g.sample_timer + dt) / SAMPLE_PERIOD < 2 := by
    rw [div_lt_iff₀ hsp]
    linarith
  have hfl : ⌊(g.sample_timer + dt) / SAMPLE_PERIOD⌋ = 1 := by
    rw [Int.floor_eq_iff]
    constructor
    · exact_mod_cast hlo
    · push_cast
      linarith
  rw [hfl]
  rfl

lemma GateSystem.update_one_sample_pulses (g : GateSystem) (dt : ℚ)
    (h1 : SAMPLE_PERIOD ≤ g.sample_timer + dt)
    (h2 : g.sample_timer + dt < 2 * SAMPLE_PERIOD) :
    (g.update dt).gate.zp_dac_pulse =
      (({ g.pre_sample dt with sample_timer :=
          (g.pre_sample dt).sample_timer - SAMPLE_PERIOD } :
            GateSystem).control_step).1.zp_dac_pulse ∧
    (g.update dt).gate.zp_adc_pulse = true := by
  have hn := g.sample_count_one dt h1 h2
  simp only [GateSystem.update, hn, GateSystem.run_samples]
  constructor <;>
    (split_ifs <;> simp [GateSystem.control_step_zp_adc])

lemma GateSystem.press_open_timer (g : GateSystem) :
    (g.press_open).1.sample_timer = g.sample_timer := by
  simp only [GateSystem.press_open]
  split_ifs <;> simp [GateSystem.start_ramp_timer]

lemma GateSystem.press_open_zp_dac (g : GateSystem)
    (hs : g.state = GState.IDLE) (hra : g.ramp.active = false) :
    (g.press_open).1.zp_dac_pulse = true := by
  simp only [GateSystem.press_open]
  rw [if_pos (Or.inl hs)]
  refine (GateSystem.start_ramp_armed _ _ _ ?_).2.2
  intro hc
  have hacc : g.ramp.active = true := hc.2
  rw [hra] at hacc
  exact Bool.false_ne_true hacc

/-- `C9` counterexample: a ramp armed by a button press raises the
"new ramp armed" pulse, but `update` clears the pulses before any control
step runs and before the output word is built, so that arming is never
visible as bit 14 of any output word — the pulse is not shown for even one
control-evaluation cycle. -/
theorem ramp_pulse_invisible_for_button :
    ((GateSystem.init.press_open).1.zp_dac_pulse = true) ∧
    ((GateSystem.init.press_open).1.ramp.active = true) ∧
    (((GateSystem.init.press_open).1.update (1/10)).gate.ramp.active = true) ∧
    (((GateSystem.init.press_open).1.update (1/10)).port301.testBit 14 = false) := by
  refine ⟨?_, ?_, ?_, ?_⟩
  · with_unfolding_all decide
  · with_unfolding_all decide
  · with_unfolding_all decide
  · with_unfolding_all decide

/-- `C9` amended: the pulse flags are edge flags reset at the start of every
`update` tick and set only inside the triggering actions of that tick's
control steps.  A tick with no control step shows both pulse bits clear
(whatever happened before); a tick with exactly one control step shows
bit 15 set (the sample-taken pulse of that step) and bit 14 exactly when
that step armed a ramp; a ramp armed by a button press between ticks raises
the flag but is cleared by the next `update` before the output word is
built, so it is never visible in the word. -/
theorem pulse_edge_semantics :
    (∀ (g : GateSystem) (dt : ℚ), g.sample_timer + dt < SAMPLE_PERIOD →
      (g.update dt).port301.testBit 14 = false ∧
      (g.update dt).port301.testBit 15 = false) ∧
    (∀ (g : GateSystem) (dt : ℚ), SAMPLE_PERIOD ≤ g.sample_timer + dt →
      g.sample_timer + dt < 2 * SAMPLE_PERIOD →
      (g.update dt).port301.testBit 15 = true ∧
      (g.update dt).port301.testBit 14 =
        (({ g.pre_sample dt with sample_timer :=
            (g.pre_sample dt).sample_timer - SAMPLE_PERIOD } :
              GateSystem).control_step).1.zp_dac_pulse) ∧
    (∀ (g : GateSystem) (dt : ℚ), g.state = GState.IDLE →
      g.ramp.active = false → g.sample_timer + dt < SAMPLE_PERIOD →
      (g.press_open).1.zp_dac_pulse = true ∧
      ((g.press_open).1.update dt).port301.testBit 14 = false) := by
  refine ⟨?_, ?_, ?_⟩
  · intro g dt h
    rw [GateSystem.update_port301_eq, port301_bit14, port301_bit15]
    exact g.update_no_sample_pulses dt h
  · intro g dt h1 h2
    rw [GateSystem.update_port301_eq, port301_bit14, port301_bit15]
    have h := g.update_one_sample_pulses dt h1 h2
    exact ⟨h.2, h.1⟩
  · intro g dt hs hra htimer
    refine ⟨g.press_open_zp_dac hs hra, ?_⟩
    rw [GateSystem.update_port301_eq, port301_bit14]
    exact ((g.press_open).1.update_no_sample_pulses dt
      (by rw [GateSystem.press_open_timer]; exact htimer)).1

theorem pulse_edge_semantics_witness :
    ((gOpening.update (1/10)).port301.testBit 14 = false ∧
      (gOpening.update (1/10)).port301.testBit 15 = false) ∧
    (GateSystem.init.update (1/4)).port301.testBit 15 = true ∧
    (GateSystem.init.press_open).1.zp_dac_pulse = true := by
  refine ⟨?_, ?_, ?_⟩
  · exact pulse_edge_semantics.1 gOpening (1/10) (by with_unfolding_all decide)
  · exact (pulse_edge_semantics.2.1 GateSystem.init (1/4)
      (by with_unfolding_all decide) (by with_unfolding_all decide)).1
  · exact (pulse_edge_semantics.2.2 GateSystem.init (1/10) rfl rfl
      (by with_unfolding_all decide)).1

/-! Structural lemmas about `Ramp.update`. -/

lemma Ramp.update_fields (r : Ramp) (dt : ℚ) :
    (r.update dt).1.start_code = r.start_code ∧
    (r.update dt).1.end_code = r.end_code ∧
    (r.update dt).1.duration = r.duration := by
  simp only [Ramp.update]
  split_ifs <;> simp

lemma Ramp.update_code_inactive (r : Ramp) (dt : ℚ) (ha : r.active = false) :
    r.update dt = (r, r.end_code, false) := by
  simp [Ramp.update, ha]

lemma Ramp.update_code_active (r : Ramp) (dt : ℚ) (ha : r.active = true) :
    (r.update dt).2.1 =
      pyRound ((r.start_code : ℚ) + ((r.end_code : ℚ) - (r.start_code : ℚ)) *
        clamp ((r.t + dt) / r.duration) 0 1) ∧
    (r.update dt).1.t = r.t + dt ∧
    ((r.update dt).1.active = false ↔ 1 ≤ clamp ((r.t + dt) / r.duration) 0 1) := by
  simp only [Ramp.update, ha]
  refine ⟨by simp, by simp, ?_⟩
  by_cases hk : (1:ℚ) ≤ clamp ((r.t + dt) / r.duration) 0 1
  · simp [hk]
  · simp [hk]

lemma rampSteps_inactive (r : Ramp) (h : r.active = false) :
    ∀ ds : List ℚ, rampSteps r ds = (r, ds.map (fun _ => (r.end_code, false))) := by
  intro ds
  induction ds with
  | nil => rfl
  | cons d ds ih =>
    simp only [rampSteps, Ramp.update_code_inactive r d h, ih, List.map]

lemma last_cons_map_const {α : Type} (e : ℤ) :
    ∀ ds : List α, ((e : ℤ) :: ds.map (fun _ => e)).getLast? = some e := by
  intro ds
  induction ds with
  | nil => rfl
  | cons a as ih =>
    simpa [List.map] using ih

lemma count_map_const_false {α : Type} :
    ∀ ds : List α, (ds.map (fun _ => false)).count true = 0 := by
  intro ds
  induction ds with
  | nil => rfl
  | cons a as ih => simpa [List.map] using ih

lemma getLast?_cons_eq {α : Type} (x : α) (l : List α) (a : α)
    (h : l.getLast? = some a) : (x :: l).getLast? = some a := by
  cases l with
  | nil => simp at h
  | cons b bs => simpa using h

lemma Ramp.update_done (r : Ramp) (dt : ℚ) (ha : r.active = true) :
    (r.update dt).2.2 = decide (1 ≤ clamp ((r.t + dt) / r.duration) 0 1) := by
  simp [Ramp.update, ha]

lemma rampSteps_complete :
    ∀ (ds : List ℚ) (r : Ramp), r.active = true → 0 ≤ r.t →
      r.t < r.duration → (∀ d ∈ ds, 0 ≤ d) → r.t + ds.sum = r.duration →
      (((rampSteps r ds).2.map Prod.fst).getLast? = some r.end_code ∧
       ((rampSteps r ds).2.map Prod.snd).count true = 1) := by
  intro ds
  induction ds with
  | nil =>
    intro r ha ht0 htlt hds hsum
    simp only [List.sum_nil, add_zero] at hsum
    exact absurd hsum (ne_of_lt htlt)
  | cons d ds ih =>
    intro r ha ht0 htlt hds hsum
    have hd0 : 0 ≤ d := hds d (List.mem_cons_self d ds)
    have hds' : ∀ x ∈ ds, 0 ≤ x := fun x hx => hds x (List.mem_cons_of_mem d hx)
    have hsum0 : 0 ≤ ds.sum := List.sum_nonneg hds'
    have hsum' : (r.t + d) + ds.sum = r.duration := by
      simp only [List.sum_cons] at hsum
      linarith
    have hdur : 0 < r.duration := lt_of_le_of_lt ht0 htlt
    obtain ⟨hcode, ht', hdone⟩ := r.update_code_active d ha
    obtain ⟨hst, hend, hdu⟩ := r.update_fields d
    have hdee := r.update_done d ha
    rcases lt_or_le (r.t + d) r.duration with hlt | hge
    · -- this step does not complete: k < 1
      have hklt : clamp ((r.t + d) / r.duration) 0 1 < 1 := by
        have hx : (r.t + d) / r.duration < 1 := by
          rw [div_lt_one hdur]
          exact hlt
        simp only [clamp]
        split_ifs <;> linarith
      have hnk : ¬ (1:ℚ) ≤ clamp ((r.t + d) / r.duration) 0 1 := not_le.2 hklt
      have hact : (r.update d).1.active = true := by
        cases hco : (r.update d).1.active
        · exact absurd (hdone.1 hco) hnk
        · rfl
      have hfalse : (r.update d).2.2 = false := by
        rw [hdee, decide_eq_false hnk]
      have ihr := ih (r.update d).1 hact
        (by rw [ht']; linarith)
        (by rw [ht', hdu]; linarith)
        hds'
        (by rw [ht', hdu]; linarith)
      rw [hend] at ihr
      simp only [rampSteps, List.map, hfalse]
      constructor
      · refine getLast?_cons_eq _ _ _ ihr.1
      · simpa using ihr.2
    · -- this step completes exactly at the duration
      have heq : r.t + d = r.duration := le_antisymm (by linarith) hge
      have hk1 : clamp ((r.t + d) / r.duration) 0 1 = 1 := by
        rw [heq, div_self (ne_of_gt hdur)]
        norm_num [clamp]
      have hc1 : (r.update d).2.1 = r.end_code := by
        rw [hcode, hk1, mul_one,
          show (r.start_code : ℚ) + ((r.end_code : ℚ) - (r.start_code : ℚ)) =
            ((r.end_code : ℤ) : ℚ) from by ring,
          pyRound_intCast]
      have htrue : (r.update d).2.2 = true := by
        rw [hdee, hk1]
        simp
      have hact : (r.update d).1.active = false := hdone.2 (by rw [hk1])
      have hrest := rampSteps_inactive (r.update d).1 hact ds
      simp only [rampSteps, hrest, List.map, hc1, htrue, hend, List.map_map]
      constructor
      · have : (Prod.fst ∘ fun _ => ((r.end_code : ℤ), false)) =
            (fun _ : ℚ => (r.end_code : ℤ)) := rfl
        rw [this]
        exact last_cons_map_const r.end_code ds
      · have : (Prod.snd ∘ fun _ => ((r.end_code : ℤ), false)) =
            (fun _ : ℚ => false) := rfl
        rw [this]
        have hrep : ∀ n : ℕ, List.count true (List.replicate n false) = 0 := by
          intro n
          induction n with
          | zero => rfl
          | succ n ihn => simpa [List.replicate_succ] using ihn
        simp [hrep]

lemma ramp_update_between (r : Ramp) (dt1 dt2 : ℚ) (ha : r.active = true)
    (hd : 0 < r.duration) (h2 : 0 ≤ dt2) :
    (r.start_code ≤ r.end_code →
      (r.update dt1).2.1 ≤ ((r.update dt1).1.update dt2).2.1 ∧
      ((r.update dt1).1.update dt2).2.1 ≤ r.end_code) ∧
    (r.end_code ≤ r.start_code →
      ((r.update dt1).1.update dt2).2.1 ≤ (r.update dt1).2.1 ∧
      r.end_code ≤ ((r.update dt1).1.update dt2).2.1) := by
  obtain ⟨hcode, ht', hdone⟩ := r.update_code_active dt1 ha
  obtain ⟨hst, hend, hdu⟩ := r.update_fields dt1
  set k1 : ℚ := clamp ((r.t + dt1) / r.duration) 0 1 with hk1def
  have hk1hi : k1 ≤ 1 := clamp_le_hi _ _ _ (by norm_num)
  have hc1e : ∀ e : ℤ, (r.end_code : ℚ) = e → True := fun _ _ => trivial
  have hintcast : (r.start_code : ℚ) + ((r.end_code : ℚ) - (r.start_code : ℚ)) =
      ((r.end_code : ℤ) : ℚ) := by ring
  by_cases hk : (1:ℚ) ≤ k1
  · -- the first step completes; the second call returns the end code
    have hk1 : k1 = 1 := le_antisymm hk1hi hk
    have hc1 : (r.update dt1).2.1 = r.end_code := by
      rw [hcode, hk1, mul_one, hintcast, pyRound_intCast]
    have hact : (r.update dt1).1.active = false := hdone.2 hk
    have h2nd := Ramp.update_code_inactive _ dt2 hact
    rw [h2nd]
    constructor
    · intro _
      constructor
      · rw [hc1]
        simp [hend]
      · simp [hend]
    · intro _
      constructor
      · rw [hc1]
        simp [hend]
      · simp [hend]
  · -- the first step does not complete
    have hact : (r.update dt1).1.active = true := by
      cases hco : (r.update dt1).1.active
      · exact absurd (hdone.1 hco) hk
      · rfl
    obtain ⟨hcode2, ht2', hdone2⟩ := (r.update dt1).1.update_code_active dt2 hact
    rw [hst, hend, hdu, ht'] at hcode2
    set k2 : ℚ := clamp ((r.t + dt1 + dt2) / r.duration) 0 1 with hk2def
    have hk2hi : k2 ≤ 1 := clamp_le_hi _ _ _ (by norm_num)
    have hk12 : k1 ≤ k2 := by
      apply clamp_mono 0 1 (by norm_num)
      rw [div_le_div_iff_of_pos_right hd]
      linarith
    constructor
    · intro hse
      have hsecast : (r.start_code : ℚ) ≤ (r.end_code : ℚ) := by exact_mod_cast hse
      constructor
      · rw [hcode, hcode2]
        apply pyRound_mono
        have := mul_le_mul_of_nonneg_left hk12 (by linarith :
          (0:ℚ) ≤ (r.end_code : ℚ) - (r.start_code : ℚ))
        linarith
      · rw [hcode2]
        have harg : (r.start_code : ℚ) +
            ((r.end_code : ℚ) - (r.start_code : ℚ)) * k2 ≤ ((r.end_code : ℤ) : ℚ) := by
          have := mul_le_mul_of_nonneg_left hk2hi (by linarith :
            (0:ℚ) ≤ (r.end_code : ℚ) - (r.start_code : ℚ))
          linarith
        calc pyRound ((r.start_code : ℚ) +
              ((r.end_code : ℚ) - (r.start_code : ℚ)) * k2)
            ≤ pyRound ((r.end_code : ℤ) : ℚ) := pyRound_mono harg
        _ = r.end_code := pyRound_intCast _
    · intro hes
      have hescast : (r.end_code : ℚ) ≤ (r.start_code : ℚ) := by exact_mod_cast hes
      constructor
      · rw [hcode, hcode2]
        apply pyRound_mono
        have := mul_le_mul_of_nonpos_left hk12 (by linarith :
          (r.end_code : ℚ) - (r.start_code : ℚ) ≤ 0)
        linarith
      · rw [hcode2]
        have harg : ((r.end_code : ℤ) : ℚ) ≤ (r.start_code : ℚ) +
            ((r.end_code : ℚ) - (r.start_code : ℚ)) * k2 := by
          have := mul_le_mul_of_nonpos_left hk2hi (by linarith :
            (r.end_code : ℚ) - (r.start_code : ℚ) ≤ 0)
          linarith
        calc (r.end_code : ℤ) = pyRound ((r.end_code : ℤ) : ℚ) :=
            (pyRound_intCast _).symm
        _ ≤ pyRound ((r.start_code : ℚ) +
              ((r.end_code : ℚ) - (r.start_code : ℚ)) * k2) := pyRound_mono harg

/-- `C6` counterexample: ramp progress is quantized to integer codes, so two
successive partial steps (cumulative `dt` still below the duration, target
not yet reached) can return the same output value — progress is not
strictly monotonic. -/
theorem ramp_progress_not_strict :
    ((1:ℚ)/1000 + 1/1000 < 12) ∧ ((0:ℤ) ≠ 255) ∧
    ((Ramp.start 0 255 12).update (1/1000)).2.1 =
      (((Ramp.start 0 255 12).update (1/1000)).1.update (1/1000)).2.1 ∧
    ((Ramp.start 0 255 12).update (1/1000)).2.1 ≠ 255 := by
  refine ⟨by norm_num, by decide, ?_, ?_⟩
  · with_unfolding_all decide
  · with_unfolding_all decide

/-- `C6` amended: for every ramp with requested duration at least the
`1e-6` floor imposed by `Ramp.start`, stepping with nonnegative `dt` values
summing exactly to the duration ends with output value equal to the target,
and `justCompleted` is reported `true` on exactly one call; and progress is
monotonic (non-strictly) toward the target: each successive output lies
between the previous output and the target code. -/
theorem ramp_completion_and_monotonicity :
    (∀ (f e : ℤ) (dur : ℚ) (ds : List ℚ), 1/1000000 ≤ dur →
      (∀ d ∈ ds, 0 ≤ d) → ds.sum = dur →
      ((((rampSteps (Ramp.start f e dur) ds).2.map Prod.fst).getLast? = some e) ∧
       (((rampSteps (Ramp.start f e dur) ds).2.map Prod.snd).count true = 1))) ∧
    (∀ (r : Ramp) (dt1 dt2 : ℚ), r.active = true → 0 < r.duration → 0 ≤ dt2 →
      (r.start_code ≤ r.end_code →
        (r.update dt1).2.1 ≤ ((r.update dt1).1.update dt2).2.1 ∧
        ((r.update dt1).1.update dt2).2.1 ≤ r.end_code) ∧
      (r.end_code ≤ r.start_code →
        ((r.update dt1).1.update dt2).2.1 ≤ (r.update dt1).2.1 ∧
        r.end_code ≤ ((r.update dt1).1.update dt2).2.1)) := by
  constructor
  · intro f e dur ds hdur hds hsum
    have hmax : max (1/1000000 : ℚ) dur = dur := max_eq_right hdur
    have hc := rampSteps_complete ds (Ramp.start f e dur) rfl le_rfl
      (by simp only [Ramp.start, hmax]; linarith)
      hds
      (by simp only [Ramp.start, hmax, zero_add]; exact hsum)
    simpa only [Ramp.start] using hc
  · intro r dt1 dt2 ha hd h2
    exact ramp_update_between r dt1 dt2 ha hd h2

theorem ramp_completion_and_monotonicity_witness :
    (((rampSteps (Ramp.start 0 255 12) [6, 6]).2.map Prod.fst).getLast? =
        some 255 ∧
     ((rampSteps (Ramp.start 0 255 12) [6, 6]).2.map Prod.snd).count true = 1) ∧
    ((Ramp.start 0 255 12).update 1).2.1 ≤
      (((Ramp.start 0 255 12).update 1).1.update 1).2.1 := by
  constructor
  · exact ramp_completion_and_monotonicity.1 0 255 12 [6, 6] (by norm_num)
      (by intro d hd; simp at hd; rw [hd]; norm_num) (by norm_num)
  · exact ((ramp_completion_and_monotonicity.2 (Ramp.start 0 255 12) 1 1 rfl
      (by norm_num [Ramp.start, lt_max_iff]) (by norm_num)).1 (by decide)).1

theorem build_port301_layout_witness :
    (gW3.build_port301).testBit 3 = ((gW3.dac_code % 256).toNat).testBit 3 ∧
    (gW3.build_port301).testBit 8 = false ∧
    (gW3.build_port301).testBit 14 = gW3.zp_dac_pulse ∧
    (gW3.build_port301).testBit 20 = false :=
  ⟨(build_port301_layout gW3).1 3 (by norm_num),
   (build_port301_layout gW3).2.1 8 (by norm_num) (by norm_num),
   (build_port301_layout gW3).2.2.1,
   (build_port301_layout gW3).2.2.2.2 20 (by norm_num)⟩
